import Mathlib

/-!
# The privilege-dropping launcher `snap/local/parts/drop-user/drop.c`

`main` of `drop.c` is a straight line of library calls with early exits.  It is
embedded here as a pure function from the environment the process runs in (the
answers the C library and the kernel give) and the argument vector to a `Run`:
the list of library calls and writes the process performs, in program order,
and the way the process ends.

Every library function is called at most once in a run, so an environment that
fixes one answer per call describes every possible run.
-/

namespace Drop

/-! ## Data model -/

/-- Numeric user id (`uid_t`). -/
abbrev uid_t := Nat

/-- Numeric group id (`gid_t`). -/
abbrev gid_t := Nat

/-- The fields of `struct passwd` that `main` reads. -/
structure passwd where
  pw_uid : uid_t
  pw_gid : gid_t
  deriving DecidableEq, Repr

/-- The two output streams `main` writes to. -/
inductive Stream where
  | stdout
  | stderr
  deriving DecidableEq, Repr

/-- What a system call hands back: its return value and the value `errno` has
once the call has returned. -/
structure SysResult where
  ret : Int
  errno : Nat
  deriving DecidableEq, Repr

/-- One observable action of the process.  A `char *` that may be `NULL` is an
`Option String`; the `gid_t` array handed to `setgroups` is `none` for `NULL`. -/
inductive Event where
  | write (stream : Stream) (text : String)
  | dlsym (symbol : String)
  | dlerror
  | getpwnam (name : String)
  | geteuid
  | setgroups (size : Nat) (list : Option (List gid_t))
  | setgid (gid : gid_t)
  | setuid (uid : uid_t)
  | execvp (file : Option String) (argv : List String)
  deriving DecidableEq, Repr

/-- How the process ends: `exit(status)`, `return value` from `main`, or the
process image is replaced because `execvp` does not return. -/
inductive Outcome where
  | exit (status : Int)
  | ret (value : Int)
  | replaced
  deriving DecidableEq, Repr

/-- The run of the process: what it did, in order, and how it ended. -/
structure Run where
  trace : List Event
  outcome : Outcome
  deriving DecidableEq, Repr

/-- The environment of the process: the answer of every library function
`main` calls.
* `dlsym symbol` is `dlsym(RTLD_NEXT, symbol)`: `none` for `NULL`, else the
  function found, of the type of `original_setgroups`;
* `dlerror` is the string `dlerror()` returns (`none` for `NULL`);
* `getpwnam name` is `none` for `NULL`;
* `execvp file argv` is `none` when the image is replaced (the call does not
  return) and `some e` when the call returns `-1` with `errno = e`;
* `progname` is the program name `err` starts its line with. -/
structure Env where
  dlsym : String → Option (Nat → Option (List gid_t) → SysResult)
  dlerror : Option String
  getpwnam : String → Option passwd
  geteuid : uid_t
  setgid : gid_t → SysResult
  setuid : uid_t → SysResult
  execvp : Option String → List String → Option Nat
  strerror : Nat → String
  progname : String

/-! ## The C library functions `main` uses -/

/-- Modelled from the spec: the constant `EXIT_FAILURE` of `<stdlib.h>`, which is
not defined in the repository's sources; it is the "failure status" of the
spec, a non-zero value, `1` in the C libraries of the systems the launcher is
built for. -/
def EXIT_FAILURE : Int := 1

/-- The text the `%s` conversion of `printf` produces; the C library prints
`(null)` for a `NULL` pointer. -/
def fmt_s : Option String → String
  | some s => s
  | none => "(null)"

/-- The line `perror(s)` writes on the standard error stream. -/
def perror (env : Env) (s : String) (errno : Nat) : Event :=
  .write .stderr (s ++ ": " ++ env.strerror errno ++ "\n")

/-- The line `err(eval, "%s", arg)` writes on the standard error stream before
it calls `exit(eval)`: program name, the formatted message, the text of
`errno`. -/
def err_line (env : Env) (arg : Option String) (errno : Nat) : Event :=
  .write .stderr (env.progname ++ ": " ++ fmt_s arg ++ ": " ++ env.strerror errno ++ "\n")

/-- The exit status the parent of the process observes: the low eight bits of
the value given to `exit` or returned from `main`; none when the process image
was replaced. -/
def Outcome.status : Outcome → Option Int
  | .exit s => some (s % 256)
  | .ret v => some (v % 256)
  | .replaced => none

/-! ## `main` -/

/-- The function `main` of `drop.c`, statement by statement.  `argv` is the
argument vector up to its terminating `NULL`, so `argc` is its length. -/
def main (env : Env) (argv : List String) : Run :=
  let argc := argv.length
  let user := "snap_daemon"
  if argc < 2 then
    -- printf("Usage: %s command [args]\n", argv[0]); exit(0);
    { trace := [.write .stdout ("Usage: " ++ fmt_s argv[0]? ++ " command [args]\n")]
      outcome := .exit 0 }
  else
    -- cmdargv = &argv[1];
    let cmdargv := argv.drop 1
    -- original_setgroups = dlsym(RTLD_NEXT, "setgroups");
    let t₁ := [Event.dlsym "setgroups"]
    match env.dlsym "setgroups" with
    | none =>
      -- fprintf(stderr, "could not find setgroups in libc; %s", dlerror()); return -1;
      { trace := t₁ ++ [.dlerror,
          .write .stderr ("could not find setgroups in libc; " ++ fmt_s env.dlerror)]
        outcome := .ret (-1) }
    | some original_setgroups =>
      -- struct passwd *pwd = getpwnam(user);
      let t₂ := t₁ ++ [Event.getpwnam user]
      match env.getpwnam user with
      | none =>
        -- printf("'%s' not found\n", user); exit(EXIT_FAILURE);
        { trace := t₂ ++ [.write .stdout ("'" ++ fmt_s (some user) ++ "' not found\n")]
          outcome := .exit EXIT_FAILURE }
      | some pwd =>
        -- geteuid() == 0 && original_setgroups(0, NULL) < 0
        -- (the right operand is evaluated only when the left one holds)
        let cond : List Event × Bool :=
          if env.geteuid = 0 then
            ([.geteuid, .setgroups 0 none], decide ((original_setgroups 0 none).ret < 0))
          else
            ([.geteuid], false)
        let t₃ := t₂ ++ cond.1
        if cond.2 then
          -- perror("setgroups"); goto fail;
          { trace := t₃ ++ [perror env "setgroups" (original_setgroups 0 none).errno]
            outcome := .exit EXIT_FAILURE }
        else
          -- if (setgid(pwd->pw_gid) < 0)
          let t₄ := t₃ ++ [Event.setgid pwd.pw_gid]
          if (env.setgid pwd.pw_gid).ret < 0 then
            -- perror("setgid"); goto fail;
            { trace := t₄ ++ [perror env "setgid" (env.setgid pwd.pw_gid).errno]
              outcome := .exit EXIT_FAILURE }
          else
            -- if (setuid(pwd->pw_uid) < 0)
            let t₅ := t₄ ++ [Event.setuid pwd.pw_uid]
            if (env.setuid pwd.pw_uid).ret < 0 then
              -- perror("setuid"); goto fail;  (fail: exit(EXIT_FAILURE);)
              { trace := t₅ ++ [perror env "setuid" (env.setuid pwd.pw_uid).errno]
                outcome := .exit EXIT_FAILURE }
            else
              -- execvp(cmdargv[0], cmdargv);
              let t₆ := t₅ ++ [Event.execvp cmdargv[0]? cmdargv]
              match env.execvp cmdargv[0]? cmdargv with
              | none => { trace := t₆, outcome := .replaced }
              | some errno =>
                -- err(1, "%s", cmdargv[0]);  (err does not return: line 85 is never reached)
                { trace := t₆ ++ [err_line env cmdargv[0]? errno]
                  outcome := .exit 1 }

/-! ## Observations on a trace -/

/-- The credential-mutation calls: `setgroups`, `setgid`, `setuid`. -/
def Event.isCredMutation : Event → Bool
  | .setgroups _ _ => true
  | .setgid _ => true
  | .setuid _ => true
  | _ => false

/-- The process-replacement call `execvp`. -/
def Event.isExec : Event → Bool
  | .execvp _ _ => true
  | _ => false

/-- The calls that touch or prepare the privilege transition: the symbol
lookup, the account lookup, the credential mutations and `execvp`. -/
def Event.isPrivileged : Event → Bool
  | .dlsym _ => true
  | .dlerror => true
  | .getpwnam _ => true
  | .geteuid => true
  | .write _ _ => false
  | e => e.isCredMutation || e.isExec

/-- The credential-mutation calls of a trace, in order. -/
def credCalls (t : List Event) : List Event := t.filter Event.isCredMutation

/-- The credential-mutation and `execvp` calls of a trace, in order. -/
def credExecCalls (t : List Event) : List Event :=
  t.filter (fun e => e.isCredMutation || e.isExec)

/-- The account names looked up in a trace, in order. -/
def lookups : List Event → List String
  | [] => []
  | .getpwnam n :: t => n :: lookups t
  | _ :: t => lookups t

/-- The texts written on a stream, in order. -/
def written (s : Stream) : List Event → List String
  | [] => []
  | .write s₁ text :: t => if s₁ = s then text :: written s t else written s t
  | _ :: t => written s t

/-- The events of a run that reaches line 66, up to and including the
evaluation of `geteuid() == 0 && original_setgroups(0, NULL) < 0`. -/
def uptoGroups (env : Env) : List Event :=
  [.dlsym "setgroups", .getpwnam "snap_daemon"] ++
    (if env.geteuid = 0 then [.geteuid, .setgroups 0 none] else [.geteuid])

/-! ## Sample environments -/

/-- A root process on a host where `snap_daemon` has uid 584788 and gid 584789
and every credential call succeeds; `/bin/true` can be launched, any other
command fails with `errno` 2. -/
def rootEnv : Env where
  dlsym := fun _ => some (fun _ _ => ⟨0, 0⟩)
  dlerror := none
  getpwnam := fun n => if n = "snap_daemon" then some ⟨584788, 584789⟩ else none
  geteuid := 0
  setgid := fun _ => ⟨0, 0⟩
  setuid := fun _ => ⟨0, 0⟩
  execvp := fun file _ => if file = some "/bin/true" then none else some 2
  strerror := fun e => if e = 2 then "No such file or directory" else "Operation not permitted"
  progname := "drop"

/-- The same host seen by an unprivileged process (uid 1000): `setgid` and
`setuid` are refused with `errno` 1. -/
def userEnv : Env :=
  { rootEnv with geteuid := 1000, setgid := fun _ => ⟨-1, 1⟩, setuid := fun _ => ⟨-1, 1⟩ }

/-- A root process whose `setgroups` is refused with `errno` 1. -/
def groupsRefusedEnv : Env :=
  { rootEnv with dlsym := fun _ => some (fun _ _ => ⟨-1, 1⟩) }

/-- A root process whose `setuid` is refused with `errno` 1, after `setgroups`
and `setgid` went through. -/
def uidRefusedEnv : Env :=
  { rootEnv with setuid := fun _ => ⟨-1, 1⟩ }

/-- A root process on a host without a `snap_daemon` account. -/
def noAccountEnv : Env :=
  { rootEnv with getpwnam := fun _ => none }

/-- A root process in a runtime where `dlsym` finds no `setgroups`. -/
def noSymbolEnv : Env :=
  { rootEnv with dlsym := fun _ => none, dlerror := some "undefined symbol: setgroups" }

/-- An unprivileged process (uid 1000) whose `setgid` is accepted and whose
`setuid` is refused with `errno` 1. -/
def userGidAcceptedEnv : Env :=
  { rootEnv with geteuid := 1000, setuid := fun _ => ⟨-1, 1⟩ }

/-- A process that already runs as `snap_daemon` (uid 584788): not root, and
both `setgid` and `setuid` are accepted. -/
def daemonEnv : Env :=
  { rootEnv with geteuid := 584788 }

/-! ## The paths through `main` -/

/-- Path 1 (lines 43-46): no command given. -/
theorem main_usage (env : Env) (argv : List String) (h : argv.length < 2) :
    main env argv =
      { trace := [.write .stdout ("Usage: " ++ fmt_s argv[0]? ++ " command [args]\n")]
        outcome := .exit 0 } := by
  simp [main, h]

/-- Path 2 (lines 50-54): `dlsym` finds no `setgroups`. -/
theorem main_nosym (env : Env) (argv : List String) (h : 2 ≤ argv.length)
    (hs : env.dlsym "setgroups" = none) :
    main env argv =
      { trace := [.dlsym "setgroups", .dlerror,
          .write .stderr ("could not find setgroups in libc; " ++ fmt_s env.dlerror)]
        outcome := .ret (-1) } := by
  have h' : ¬ argv.length < 2 := by omega
  simp [main, h', hs]

/-- Path 3 (lines 57-61): `getpwnam` finds no record. -/
theorem main_nouser (env : Env) (argv : List String) (h : 2 ≤ argv.length)
    (sg : Nat → Option (List gid_t) → SysResult)
    (hs : env.dlsym "setgroups" = some sg) (hp : env.getpwnam "snap_daemon" = none) :
    main env argv =
      { trace := [.dlsym "setgroups", .getpwnam "snap_daemon",
          .write .stdout "'snap_daemon' not found\n"]
        outcome := .exit EXIT_FAILURE } := by
  have h' : ¬ argv.length < 2 := by omega
  simp [main, h', hs, hp, fmt_s]

/-- Path 4 (lines 66-69): the process is root and `setgroups` is refused. -/
theorem main_setgroups_fail (env : Env) (argv : List String) (h : 2 ≤ argv.length)
    (sg : Nat → Option (List gid_t) → SysResult) (pwd : passwd)
    (hs : env.dlsym "setgroups" = some sg) (hp : env.getpwnam "snap_daemon" = some pwd)
    (he : env.geteuid = 0) (hg : (sg 0 none).ret < 0) :
    main env argv =
      { trace := uptoGroups env ++ [perror env "setgroups" (sg 0 none).errno]
        outcome := .exit EXIT_FAILURE } := by
  have h' : ¬ argv.length < 2 := by omega
  simp [main, h', hs, hp, he, hg, uptoGroups]

/-- Path 5 (lines 72-75): `setgid` is refused. -/
theorem main_setgid_fail (env : Env) (argv : List String) (h : 2 ≤ argv.length)
    (sg : Nat → Option (List gid_t) → SysResult) (pwd : passwd)
    (hs : env.dlsym "setgroups" = some sg) (hp : env.getpwnam "snap_daemon" = some pwd)
    (hg : ¬ (env.geteuid = 0 ∧ (sg 0 none).ret < 0))
    (hgid : (env.setgid pwd.pw_gid).ret < 0) :
    main env argv =
      { trace := uptoGroups env ++
          [.setgid pwd.pw_gid, perror env "setgid" (env.setgid pwd.pw_gid).errno]
        outcome := .exit EXIT_FAILURE } := by
  have h' : ¬ argv.length < 2 := by omega
  by_cases he : env.geteuid = 0
  · have hg' : ¬ (sg 0 none).ret < 0 := fun hn => hg ⟨he, hn⟩
    simp [main, h', hs, hp, he, hg', hgid, uptoGroups]
  · simp [main, h', hs, hp, he, hgid, uptoGroups]

/-- Path 6 (lines 78-81): `setuid` is refused. -/
theorem main_setuid_fail (env : Env) (argv : List String) (h : 2 ≤ argv.length)
    (sg : Nat → Option (List gid_t) → SysResult) (pwd : passwd)
    (hs : env.dlsym "setgroups" = some sg) (hp : env.getpwnam "snap_daemon" = some pwd)
    (hg : ¬ (env.geteuid = 0 ∧ (sg 0 none).ret < 0))
    (hgid : ¬ (env.setgid pwd.pw_gid).ret < 0)
    (huid : (env.setuid pwd.pw_uid).ret < 0) :
    main env argv =
      { trace := uptoGroups env ++
          [.setgid pwd.pw_gid, .setuid pwd.pw_uid,
            perror env "setuid" (env.setuid pwd.pw_uid).errno]
        outcome := .exit EXIT_FAILURE } := by
  have h' : ¬ argv.length < 2 := by omega
  by_cases he : env.geteuid = 0
  · have hg' : ¬ (sg 0 none).ret < 0 := fun hn => hg ⟨he, hn⟩
    simp [main, h', hs, hp, he, hg', hgid, huid, uptoGroups]
  · simp [main, h', hs, hp, he, hgid, huid, uptoGroups]

/-- Paths 7 and 8 (lines 83-85): `execvp` is called; either the image is replaced or
`err` reports the failure and exits with status 1. -/
theorem main_exec (env : Env) (argv : List String) (h : 2 ≤ argv.length)
    (sg : Nat → Option (List gid_t) → SysResult) (pwd : passwd)
    (hs : env.dlsym "setgroups" = some sg) (hp : env.getpwnam "snap_daemon" = some pwd)
    (hg : ¬ (env.geteuid = 0 ∧ (sg 0 none).ret < 0))
    (hgid : ¬ (env.setgid pwd.pw_gid).ret < 0)
    (huid : ¬ (env.setuid pwd.pw_uid).ret < 0) :
    main env argv =
      match env.execvp argv[1]? (argv.drop 1) with
      | none =>
        { trace := uptoGroups env ++
            [.setgid pwd.pw_gid, .setuid pwd.pw_uid, .execvp argv[1]? (argv.drop 1)]
          outcome := .replaced }
      | some errno =>
        { trace := uptoGroups env ++
            [.setgid pwd.pw_gid, .setuid pwd.pw_uid, .execvp argv[1]? (argv.drop 1),
              err_line env argv[1]? errno]
          outcome := .exit 1 } := by
  have h' : ¬ argv.length < 2 := by omega
  have hd : (argv.drop 1)[0]? = argv[1]? := by simp
  by_cases he : env.geteuid = 0
  · have hg' : ¬ (sg 0 none).ret < 0 := fun hn => hg ⟨he, hn⟩
    simp only [main, h', hs, hp, he, hg', hgid, huid, uptoGroups, hd]
    cases env.execvp argv[1]? (argv.drop 1) <;> simp
  · simp only [main, h', hs, hp, he, hgid, huid, uptoGroups, hd]
    cases env.execvp argv[1]? (argv.drop 1) <;> simp

/-- A run whose trace holds an `execvp` call went through every earlier step:
a command was given, both lookups succeeded and no transition was refused. -/
theorem main_reaches_exec (env : Env) (argv : List String)
    (h : ∃ e ∈ (main env argv).trace, e.isExec = true) :
    2 ≤ argv.length ∧
    ∃ sg pwd, env.dlsym "setgroups" = some sg ∧ env.getpwnam "snap_daemon" = some pwd ∧
      ¬ (env.geteuid = 0 ∧ (sg 0 none).ret < 0) ∧
      ¬ (env.setgid pwd.pw_gid).ret < 0 ∧ ¬ (env.setuid pwd.pw_uid).ret < 0 := by
  by_cases hargc : argv.length < 2
  · rw [main_usage env argv hargc] at h
    simp [Event.isExec] at h
  have h2 : 2 ≤ argv.length := by omega
  rcases hs : env.dlsym "setgroups" with _ | sg
  · rw [main_nosym env argv h2 hs] at h
    simp [Event.isExec] at h
  rcases hp : env.getpwnam "snap_daemon" with _ | pwd
  · rw [main_nouser env argv h2 sg hs hp] at h
    simp [Event.isExec] at h
  by_cases hg : env.geteuid = 0 ∧ (sg 0 none).ret < 0
  · rw [main_setgroups_fail env argv h2 sg pwd hs hp hg.1 hg.2] at h
    simp [Event.isExec, uptoGroups, perror, hg.1] at h
  by_cases hgid : (env.setgid pwd.pw_gid).ret < 0
  · rw [main_setgid_fail env argv h2 sg pwd hs hp hg hgid] at h
    by_cases he : env.geteuid = 0 <;> simp [Event.isExec, uptoGroups, perror, he] at h
  by_cases huid : (env.setuid pwd.pw_uid).ret < 0
  · rw [main_setuid_fail env argv h2 sg pwd hs hp hg hgid huid] at h
    by_cases he : env.geteuid = 0 <;> simp [Event.isExec, uptoGroups, perror, he] at h
  exact ⟨h2, sg, pwd, rfl, rfl, hg, hgid, huid⟩

/-- Every fatal path other than the unknown-account one reports on the standard
error stream: a run with a command that ends without replacing the process
image, in which `dlsym` found nothing or the account exists, writes nothing on
the standard output, one line on the standard error stream, and ends with a
non-zero status. -/
theorem fatal_diagnostic_on_stderr_of_other_paths (env : Env) (argv : List String)
    (hargc : 2 ≤ argv.length) (hend : (main env argv).outcome ≠ .replaced)
    (hacc : env.dlsym "setgroups" = none ∨ env.getpwnam "snap_daemon" ≠ none) :
    written .stdout (main env argv).trace = [] ∧
    (∃ line, written .stderr (main env argv).trace = [line]) ∧
    ∃ s, (main env argv).outcome.status = some s ∧ s ≠ 0 := by
  rcases hs : env.dlsym "setgroups" with _ | sg
  · rw [main_nosym env argv hargc hs]
    simp [written, Outcome.status]
  rcases hp : env.getpwnam "snap_daemon" with _ | pwd
  · rcases hacc with hacc | hacc
    · rw [hs] at hacc
      exact absurd hacc (by simp)
    · exact absurd hp hacc
  by_cases hg : env.geteuid = 0 ∧ (sg 0 none).ret < 0
  · rw [main_setgroups_fail env argv hargc sg pwd hs hp hg.1 hg.2]
    simp [written, uptoGroups, perror, hg.1, Outcome.status, EXIT_FAILURE]
  by_cases hgid : (env.setgid pwd.pw_gid).ret < 0
  · rw [main_setgid_fail env argv hargc sg pwd hs hp hg hgid]
    by_cases he : env.geteuid = 0 <;>
      simp [written, uptoGroups, perror, he, Outcome.status, EXIT_FAILURE]
  by_cases huid : (env.setuid pwd.pw_uid).ret < 0
  · rw [main_setuid_fail env argv hargc sg pwd hs hp hg hgid huid]
    by_cases he : env.geteuid = 0 <;>
      simp [written, uptoGroups, perror, he, Outcome.status, EXIT_FAILURE]
  · rw [main_exec env argv hargc sg pwd hs hp hg hgid huid] at hend ⊢
    rcases hx : env.execvp argv[1]? (argv.drop 1) with _ | errno
    · rw [hx] at hend
      exact absurd rfl hend
    · by_cases he : env.geteuid = 0 <;>
        simp [written, uptoGroups, err_line, he, Outcome.status]

/-! ## Properties of `main` -/

/-- C1: a run of `main` that reaches `execvp` was given a command, found
`setgroups` and the account `snap_daemon`, had no transition refused, and its
credential-mutation and `execvp` calls are exactly `setgroups(0, NULL)` (present
if and only if `geteuid()` is 0), `setgid(pw_gid)`, `setuid(pw_uid)`, `execvp`,
in this order and once each, with the ids those of the account record. -/
theorem C1_transition_order (env : Env) (argv : List String)
    (h : ∃ e ∈ (main env argv).trace, e.isExec = true) :
    2 ≤ argv.length ∧
    ∃ sg pwd, env.dlsym "setgroups" = some sg ∧ env.getpwnam "snap_daemon" = some pwd ∧
      (env.geteuid = 0 → 0 ≤ (sg 0 none).ret) ∧
      0 ≤ (env.setgid pwd.pw_gid).ret ∧ 0 ≤ (env.setuid pwd.pw_uid).ret ∧
      credExecCalls (main env argv).trace =
        (if env.geteuid = 0 then [Event.setgroups 0 none] else []) ++
          [.setgid pwd.pw_gid, .setuid pwd.pw_uid, .execvp argv[1]? (argv.drop 1)] := by
  obtain ⟨h2, sg, pwd, hs, hp, hg, hgid, huid⟩ := main_reaches_exec env argv h
  refine ⟨h2, sg, pwd, hs, hp, fun he => ?_, not_lt.mp hgid, not_lt.mp huid, ?_⟩
  · exact not_lt.mp fun hn => hg ⟨he, hn⟩
  · rw [main_exec env argv h2 sg pwd hs hp hg hgid huid]
    cases env.execvp argv[1]? (argv.drop 1) <;>
      by_cases he : env.geteuid = 0 <;>
      simp [credExecCalls, uptoGroups, Event.isCredMutation, Event.isExec, err_line, he]

/-- C1 at a concrete run: root launches `/bin/true -v`. -/
theorem C1_transition_order_witness :
    (∃ e ∈ (main rootEnv ["drop", "/bin/true", "-v"]).trace, e.isExec = true) ∧
    credExecCalls (main rootEnv ["drop", "/bin/true", "-v"]).trace =
      [.setgroups 0 none, .setgid 584789, .setuid 584788,
        .execvp (some "/bin/true") ["/bin/true", "-v"]] := by
  have hreach : ∃ e ∈ (main rootEnv ["drop", "/bin/true", "-v"]).trace, e.isExec = true :=
    ⟨.execvp (some "/bin/true") ["/bin/true", "-v"], by decide, rfl⟩
  refine ⟨hreach, ?_⟩
  obtain ⟨_, sg, pwd, _, hp, _, _, _, ht⟩ :=
    C1_transition_order rootEnv ["drop", "/bin/true", "-v"] hreach
  have hrec : rootEnv.getpwnam "snap_daemon" = some ⟨584788, 584789⟩ := by decide
  rw [hrec] at hp
  obtain rfl := Option.some.inj hp
  simpa [rootEnv] using ht

/-- C2: when a transition step is refused, the run stops there.  A refused
`setgroups` (the process being root) is followed by no `setgid`, `setuid` or
`execvp`; a refused `setgid` by no `setuid` or `execvp`; a refused `setuid` by no
`execvp`; and each time the process ends with `exit(EXIT_FAILURE)`. -/
theorem C2_failed_step_stops_run (env : Env) (argv : List String)
    (sg : Nat → Option (List gid_t) → SysResult) (pwd : passwd)
    (hargc : 2 ≤ argv.length)
    (hs : env.dlsym "setgroups" = some sg) (hp : env.getpwnam "snap_daemon" = some pwd) :
    (env.geteuid = 0 ∧ (sg 0 none).ret < 0 →
      credExecCalls (main env argv).trace = [.setgroups 0 none] ∧
      (main env argv).outcome = .exit EXIT_FAILURE) ∧
    (¬ (env.geteuid = 0 ∧ (sg 0 none).ret < 0) ∧ (env.setgid pwd.pw_gid).ret < 0 →
      credExecCalls (main env argv).trace =
        (if env.geteuid = 0 then [Event.setgroups 0 none] else []) ++ [.setgid pwd.pw_gid] ∧
      (main env argv).outcome = .exit EXIT_FAILURE) ∧
    (¬ (env.geteuid = 0 ∧ (sg 0 none).ret < 0) ∧ 0 ≤ (env.setgid pwd.pw_gid).ret ∧
        (env.setuid pwd.pw_uid).ret < 0 →
      credExecCalls (main env argv).trace =
        (if env.geteuid = 0 then [Event.setgroups 0 none] else []) ++
          [.setgid pwd.pw_gid, .setuid pwd.pw_uid] ∧
      (main env argv).outcome = .exit EXIT_FAILURE) := by
  refine ⟨fun hg => ?_, fun hg => ?_, fun hg => ?_⟩
  · rw [main_setgroups_fail env argv hargc sg pwd hs hp hg.1 hg.2]
    simp [credExecCalls, uptoGroups, Event.isCredMutation, Event.isExec, perror, hg.1]
  · rw [main_setgid_fail env argv hargc sg pwd hs hp hg.1 hg.2]
    by_cases he : env.geteuid = 0 <;>
      simp [credExecCalls, uptoGroups, Event.isCredMutation, Event.isExec, perror, he]
  · rw [main_setuid_fail env argv hargc sg pwd hs hp hg.1 (not_lt.mpr hg.2.1) hg.2.2]
    by_cases he : env.geteuid = 0 <;>
      simp [credExecCalls, uptoGroups, Event.isCredMutation, Event.isExec, perror, he]

/-- C2 at three concrete runs, one per refused step. -/
theorem C2_failed_step_stops_run_witness :
    (credExecCalls (main groupsRefusedEnv ["drop", "/bin/true"]).trace = [.setgroups 0 none] ∧
      (main groupsRefusedEnv ["drop", "/bin/true"]).outcome = .exit EXIT_FAILURE) ∧
    (credExecCalls (main userEnv ["drop", "/bin/true"]).trace = [.setgid 584789] ∧
      (main userEnv ["drop", "/bin/true"]).outcome = .exit EXIT_FAILURE) ∧
    (credExecCalls (main uidRefusedEnv ["drop", "/bin/true"]).trace =
        [.setgroups 0 none, .setgid 584789, .setuid 584788] ∧
      (main uidRefusedEnv ["drop", "/bin/true"]).outcome = .exit EXIT_FAILURE) := by
  refine ⟨?_, ?_, ?_⟩
  · exact (C2_failed_step_stops_run groupsRefusedEnv ["drop", "/bin/true"]
      (fun _ _ => ⟨-1, 1⟩) ⟨584788, 584789⟩ (by decide) rfl (by decide)).1
      ⟨rfl, by decide⟩
  · exact (C2_failed_step_stops_run userEnv ["drop", "/bin/true"]
      (fun _ _ => ⟨0, 0⟩) ⟨584788, 584789⟩ (by decide) rfl (by decide)).2.1
      ⟨by decide, by decide⟩
  · exact (C2_failed_step_stops_run uidRefusedEnv ["drop", "/bin/true"]
      (fun _ _ => ⟨0, 0⟩) ⟨584788, 584789⟩ (by decide) rfl (by decide)).2.2
      ⟨by decide, by decide, by decide⟩

/-- C3: in a run where the lookup of `snap_daemon` takes place and returns no
record, `snap_daemon` is the only name looked up, the process ends with
`exit(EXIT_FAILURE)`, a non-zero status, and the run holds no `setgroups`,
`setgid`, `setuid` or `execvp` call. -/
theorem C3_unknown_account_is_fatal (env : Env) (argv : List String)
    (hcall : Event.getpwnam "snap_daemon" ∈ (main env argv).trace)
    (hnone : env.getpwnam "snap_daemon" = none) :
    lookups (main env argv).trace = ["snap_daemon"] ∧
    (main env argv).outcome = .exit EXIT_FAILURE ∧
    (∃ s, (main env argv).outcome.status = some s ∧ s ≠ 0) ∧
    credExecCalls (main env argv).trace = [] := by
  by_cases hargc : argv.length < 2
  · rw [main_usage env argv hargc] at hcall
    simp at hcall
  have h2 : 2 ≤ argv.length := by omega
  rcases hs : env.dlsym "setgroups" with _ | sg
  · rw [main_nosym env argv h2 hs] at hcall
    simp at hcall
  rw [main_nouser env argv h2 sg hs hnone]
  simp [lookups, credExecCalls, Event.isCredMutation, Event.isExec, Outcome.status, EXIT_FAILURE]

/-- C3 at a concrete run on a host without the account. -/
theorem C3_unknown_account_is_fatal_witness :
    Event.getpwnam "snap_daemon" ∈ (main noAccountEnv ["drop", "/bin/true"]).trace ∧
    noAccountEnv.getpwnam "snap_daemon" = none ∧
    lookups (main noAccountEnv ["drop", "/bin/true"]).trace = ["snap_daemon"] ∧
    (main noAccountEnv ["drop", "/bin/true"]).outcome = .exit EXIT_FAILURE ∧
    (∃ s, (main noAccountEnv ["drop", "/bin/true"]).outcome.status = some s ∧ s ≠ 0) ∧
    credExecCalls (main noAccountEnv ["drop", "/bin/true"]).trace = [] :=
  ⟨by decide, rfl,
    C3_unknown_account_is_fatal noAccountEnv ["drop", "/bin/true"] (by decide) rfl⟩

/-- C4: when a command is given and `dlsym` finds no `setgroups`, `main`
returns -1, which the parent sees as status 255, and the run holds no
`setgroups`, `setgid`, `setuid` or `execvp` call and no account lookup. -/
theorem C4_missing_setgroups_symbol_is_fatal (env : Env) (argv : List String)
    (hargc : 2 ≤ argv.length) (hs : env.dlsym "setgroups" = none) :
    (main env argv).outcome = .ret (-1) ∧
    (main env argv).outcome.status = some 255 ∧
    credExecCalls (main env argv).trace = [] ∧
    lookups (main env argv).trace = [] := by
  rw [main_nosym env argv hargc hs]
  simp [lookups, credExecCalls, Event.isCredMutation, Event.isExec, Outcome.status]

/-- C4 at a concrete run in a runtime without the symbol. -/
theorem C4_missing_setgroups_symbol_is_fatal_witness :
    2 ≤ ["drop", "/bin/true"].length ∧ noSymbolEnv.dlsym "setgroups" = none ∧
    (main noSymbolEnv ["drop", "/bin/true"]).outcome = .ret (-1) ∧
    (main noSymbolEnv ["drop", "/bin/true"]).outcome.status = some 255 ∧
    credExecCalls (main noSymbolEnv ["drop", "/bin/true"]).trace = [] ∧
    lookups (main noSymbolEnv ["drop", "/bin/true"]).trace = [] :=
  ⟨by decide, rfl,
    C4_missing_setgroups_symbol_is_fatal noSymbolEnv ["drop", "/bin/true"] (by decide) rfl⟩

/-- C5, amended: in a run that reaches the transition step (line 66) with an
effective user id other than 0, `setgroups` is never called and `setgid(pw_gid)`
is the first credential mutation; `setuid(pw_uid)` is attempted after it exactly
when `setgid` returned a non-negative result (a refused `setgid` ends the run
before `setuid`); and when `setgid` or `setuid` is refused the process ends with
`exit(EXIT_FAILURE)`, status 1, without any `execvp` call. -/
theorem C5_non_root_skips_setgroups (env : Env) (argv : List String)
    (hreach : Event.geteuid ∈ (main env argv).trace) (hne : env.geteuid ≠ 0) :
    ∃ pwd, env.getpwnam "snap_daemon" = some pwd ∧
      (∀ n l, Event.setgroups n l ∉ (main env argv).trace) ∧
      credCalls (main env argv).trace =
        (if (env.setgid pwd.pw_gid).ret < 0 then [.setgid pwd.pw_gid]
          else [.setgid pwd.pw_gid, .setuid pwd.pw_uid]) ∧
      ((env.setgid pwd.pw_gid).ret < 0 ∨ (env.setuid pwd.pw_uid).ret < 0 →
        (main env argv).outcome = .exit EXIT_FAILURE ∧
        (main env argv).outcome.status = some 1 ∧
        ∀ e ∈ (main env argv).trace, e.isExec = false) := by
  by_cases hargc : argv.length < 2
  · rw [main_usage env argv hargc] at hreach
    simp at hreach
  have h2 : 2 ≤ argv.length := by omega
  rcases hs : env.dlsym "setgroups" with _ | sg
  · rw [main_nosym env argv h2 hs] at hreach
    simp at hreach
  rcases hp : env.getpwnam "snap_daemon" with _ | pwd
  · rw [main_nouser env argv h2 sg hs hp] at hreach
    simp at hreach
  have hg : ¬ (env.geteuid = 0 ∧ (sg 0 none).ret < 0) := fun hg => hne hg.1
  refine ⟨pwd, rfl, ?_⟩
  by_cases hgid : (env.setgid pwd.pw_gid).ret < 0
  · rw [main_setgid_fail env argv h2 sg pwd hs hp hg hgid]
    simp [credCalls, uptoGroups, Event.isCredMutation, Event.isExec, perror, hne, hgid,
      Outcome.status, EXIT_FAILURE]
  by_cases huid : (env.setuid pwd.pw_uid).ret < 0
  · rw [main_setuid_fail env argv h2 sg pwd hs hp hg hgid huid]
    simp [credCalls, uptoGroups, Event.isCredMutation, Event.isExec, perror, hne, hgid,
      Outcome.status, EXIT_FAILURE]
  · rw [main_exec env argv h2 sg pwd hs hp hg hgid huid]
    cases env.execvp argv[1]? (argv.drop 1) <;>
      simp [credCalls, uptoGroups, Event.isCredMutation, err_line, hne, hgid, huid]

/-- C5, amended, at three concrete runs of a process that is not root: `setgid`
refused; `setgid` accepted and `setuid` refused; both accepted. -/
theorem C5_non_root_skips_setgroups_witness :
    (Event.geteuid ∈ (main userEnv ["drop", "/bin/true"]).trace ∧ userEnv.geteuid ≠ 0 ∧
      credCalls (main userEnv ["drop", "/bin/true"]).trace = [.setgid 584789] ∧
      (main userEnv ["drop", "/bin/true"]).outcome = .exit EXIT_FAILURE) ∧
    (Event.geteuid ∈ (main userGidAcceptedEnv ["drop", "/bin/true"]).trace ∧
      userGidAcceptedEnv.geteuid ≠ 0 ∧
      credCalls (main userGidAcceptedEnv ["drop", "/bin/true"]).trace =
        [.setgid 584789, .setuid 584788] ∧
      (main userGidAcceptedEnv ["drop", "/bin/true"]).outcome = .exit EXIT_FAILURE) ∧
    (Event.geteuid ∈ (main daemonEnv ["drop", "/bin/true"]).trace ∧ daemonEnv.geteuid ≠ 0 ∧
      credCalls (main daemonEnv ["drop", "/bin/true"]).trace =
        [.setgid 584789, .setuid 584788]) := by
  have hr₁ : Event.geteuid ∈ (main userEnv ["drop", "/bin/true"]).trace := by decide
  have hn₁ : userEnv.geteuid ≠ 0 := by decide
  have hr₂ : Event.geteuid ∈ (main userGidAcceptedEnv ["drop", "/bin/true"]).trace := by
    decide
  have hn₂ : userGidAcceptedEnv.geteuid ≠ 0 := by decide
  have hr₃ : Event.geteuid ∈ (main daemonEnv ["drop", "/bin/true"]).trace := by decide
  have hn₃ : daemonEnv.geteuid ≠ 0 := by decide
  obtain ⟨pwd₁, hp₁, _, hc₁, hf₁⟩ :=
    C5_non_root_skips_setgroups userEnv ["drop", "/bin/true"] hr₁ hn₁
  obtain ⟨pwd₂, hp₂, _, hc₂, hf₂⟩ :=
    C5_non_root_skips_setgroups userGidAcceptedEnv ["drop", "/bin/true"] hr₂ hn₂
  obtain ⟨pwd₃, hp₃, _, hc₃, _⟩ :=
    C5_non_root_skips_setgroups daemonEnv ["drop", "/bin/true"] hr₃ hn₃
  have hrec₁ : userEnv.getpwnam "snap_daemon" = some ⟨584788, 584789⟩ := by decide
  have hrec₂ : userGidAcceptedEnv.getpwnam "snap_daemon" = some ⟨584788, 584789⟩ := by
    decide
  have hrec₃ : daemonEnv.getpwnam "snap_daemon" = some ⟨584788, 584789⟩ := by decide
  rw [hrec₁] at hp₁
  rw [hrec₂] at hp₂
  rw [hrec₃] at hp₃
  obtain rfl := Option.some.inj hp₁
  obtain rfl := Option.some.inj hp₂
  obtain rfl := Option.some.inj hp₃
  exact ⟨⟨hr₁, hn₁, hc₁, (hf₁ (Or.inl (by decide))).1⟩,
    ⟨hr₂, hn₂, hc₂, (hf₂ (Or.inr (by decide))).1⟩, ⟨hr₃, hn₃, hc₃⟩⟩

/-- C5 as stated fails: the unprivileged run `drop /bin/true` reaches the
transition step (line 66) with an effective user id other than 0, its `setgid`
is refused, and the run ends at `fail` with `setgid(pw_gid)` as its only
credential mutation: `setuid` is never attempted. -/
theorem C5_setuid_not_attempted_after_refused_setgid :
    Event.geteuid ∈ (main userEnv ["drop", "/bin/true"]).trace ∧
    userEnv.geteuid ≠ 0 ∧
    userEnv.getpwnam "snap_daemon" = some ⟨584788, 584789⟩ ∧
    credCalls (main userEnv ["drop", "/bin/true"]).trace = [.setgid 584789] ∧
    (∀ uid, Event.setuid uid ∉ (main userEnv ["drop", "/bin/true"]).trace) ∧
    ¬ (∀ (env : Env) (argv : List String),
        Event.geteuid ∈ (main env argv).trace → env.geteuid ≠ 0 →
        ∃ pwd, env.getpwnam "snap_daemon" = some pwd ∧
          Event.setuid pwd.pw_uid ∈ (main env argv).trace) := by
  have hr : Event.geteuid ∈ (main userEnv ["drop", "/bin/true"]).trace := by decide
  have hn : userEnv.geteuid ≠ 0 := by decide
  have hno : ∀ uid, Event.setuid uid ∉ (main userEnv ["drop", "/bin/true"]).trace := by
    intro uid hmem
    have htrace : (main userEnv ["drop", "/bin/true"]).trace =
        [.dlsym "setgroups", .getpwnam "snap_daemon", .geteuid, .setgid 584789,
          .write .stderr "setgid: Operation not permitted\n"] := by decide
    rw [htrace] at hmem
    simp at hmem
  refine ⟨hr, hn, by decide, by decide, hno, fun hall => ?_⟩
  obtain ⟨pwd, _, hmem⟩ := hall userEnv ["drop", "/bin/true"] hr hn
  exact hno pwd.pw_uid hmem

/-- C6: with no argument after the program name (`argc < 2`) the only action of
`main` is to write the line `Usage: <argv[0]> command [args]` on the standard
output, and it ends with `exit(0)`: the run holds no symbol lookup, no account
lookup, no `setgroups`, `setgid`, `setuid` and no `execvp`. -/
theorem C6_usage_without_command (env : Env) (argv : List String)
    (hargc : argv.length < 2) :
    (main env argv).trace =
      [.write .stdout ("Usage: " ++ fmt_s argv[0]? ++ " command [args]\n")] ∧
    (∀ prog, argv[0]? = some prog →
      written .stdout (main env argv).trace = ["Usage: " ++ prog ++ " command [args]\n"]) ∧
    (main env argv).outcome = .exit 0 ∧
    (main env argv).outcome.status = some 0 ∧
    ∀ e ∈ (main env argv).trace, e.isPrivileged = false := by
  rw [main_usage env argv hargc]
  refine ⟨rfl, fun prog hprog => ?_, rfl, rfl, ?_⟩
  · simp [written, hprog, fmt_s]
  · simp [Event.isPrivileged]

/-- C6 at a concrete run: the launcher called as `drop` with nothing else. -/
theorem C6_usage_without_command_witness :
    ["drop"].length < 2 ∧
    (main rootEnv ["drop"]).trace = [.write .stdout "Usage: drop command [args]\n"] ∧
    (main rootEnv ["drop"]).outcome = .exit 0 :=
  ⟨by decide, (C6_usage_without_command rootEnv ["drop"] (by decide)).1,
    (C6_usage_without_command rootEnv ["drop"] (by decide)).2.2.1⟩

/-- C7: a run that reaches `execvp` calls it exactly once, with `argv[1]` as the
file and `argv[1], ..., argv[argc-1]`, unchanged and in order, as the argument
vector. -/
theorem C7_command_passed_verbatim (env : Env) (argv : List String)
    (h : ∃ e ∈ (main env argv).trace, e.isExec = true) :
    ∃ prog cmd rest, argv = prog :: cmd :: rest ∧
      (main env argv).trace.filter Event.isExec = [.execvp (some cmd) (cmd :: rest)] := by
  obtain ⟨h2, sg, pwd, hs, hp, hg, hgid, huid⟩ := main_reaches_exec env argv h
  match argv, h2 with
  | prog :: cmd :: rest, h2 =>
    refine ⟨prog, cmd, rest, rfl, ?_⟩
    rw [main_exec env _ h2 sg pwd hs hp hg hgid huid]
    cases env.execvp (prog :: cmd :: rest)[1]? ((prog :: cmd :: rest).drop 1) <;>
      by_cases he : env.geteuid = 0 <;>
      simp [uptoGroups, Event.isExec, err_line, he]

/-- C7 at a concrete run: root launches `/bin/echo a b`. -/
theorem C7_command_passed_verbatim_witness :
    (∃ e ∈ (main rootEnv ["drop", "/bin/echo", "a", "b"]).trace, e.isExec = true) ∧
    (main rootEnv ["drop", "/bin/echo", "a", "b"]).trace.filter Event.isExec =
      [.execvp (some "/bin/echo") ["/bin/echo", "a", "b"]] := by
  have hreach : ∃ e ∈ (main rootEnv ["drop", "/bin/echo", "a", "b"]).trace, e.isExec = true :=
    ⟨.execvp (some "/bin/echo") ["/bin/echo", "a", "b"], by decide, rfl⟩
  obtain ⟨prog, cmd, rest, hargv, ht⟩ :=
    C7_command_passed_verbatim rootEnv ["drop", "/bin/echo", "a", "b"] hreach
  obtain ⟨_, hrest⟩ := List.cons.inj hargv
  obtain ⟨rfl, rfl⟩ := List.cons.inj hrest
  exact ⟨hreach, ht⟩

/-- C8: in a run that reaches `execvp` and in which `execvp` returns, the process
writes one line on the standard error stream, made of the program name, the
command `argv[1]` and the text of the system error, writes nothing on the
standard output, ends with `exit(1)`, and the run holds that one `execvp` call
only. -/
theorem C8_exec_failure_is_fatal (env : Env) (argv : List String) (errno : Nat)
    (h : ∃ e ∈ (main env argv).trace, e.isExec = true)
    (hret : env.execvp argv[1]? (argv.drop 1) = some errno) :
    ∃ prog cmd rest, argv = prog :: cmd :: rest ∧
      written .stderr (main env argv).trace =
        [env.progname ++ ": " ++ cmd ++ ": " ++ env.strerror errno ++ "\n"] ∧
      written .stdout (main env argv).trace = [] ∧
      (main env argv).trace.getLast? =
        some (.write .stderr
          (env.progname ++ ": " ++ cmd ++ ": " ++ env.strerror errno ++ "\n")) ∧
      (main env argv).outcome = .exit 1 ∧
      (main env argv).outcome.status = some 1 ∧
      (main env argv).trace.filter Event.isExec = [.execvp (some cmd) (cmd :: rest)] := by
  obtain ⟨h2, sg, pwd, hs, hp, hg, hgid, huid⟩ := main_reaches_exec env argv h
  match argv, h2 with
  | prog :: cmd :: rest, h2 =>
    refine ⟨prog, cmd, rest, rfl, ?_⟩
    rw [main_exec env _ h2 sg pwd hs hp hg hgid huid, hret]
    by_cases he : env.geteuid = 0 <;>
      simp [uptoGroups, Event.isExec, err_line, he, written, fmt_s, Outcome.status]

/-- C8 at a concrete run: root launches a command that does not exist. -/
theorem C8_exec_failure_is_fatal_witness :
    (∃ e ∈ (main rootEnv ["drop", "/no/such"]).trace, e.isExec = true) ∧
    rootEnv.execvp (some "/no/such") ["/no/such"] = some 2 ∧
    written .stderr (main rootEnv ["drop", "/no/such"]).trace =
      ["drop: /no/such: No such file or directory\n"] ∧
    (main rootEnv ["drop", "/no/such"]).outcome = .exit 1 := by
  have hreach : ∃ e ∈ (main rootEnv ["drop", "/no/such"]).trace, e.isExec = true :=
    ⟨.execvp (some "/no/such") ["/no/such"], by decide, rfl⟩
  have hret : rootEnv.execvp (some "/no/such") ["/no/such"] = some 2 := by decide
  obtain ⟨prog, cmd, rest, hargv, herr, _, _, hout, _⟩ :=
    C8_exec_failure_is_fatal rootEnv ["drop", "/no/such"] 2 hreach hret
  obtain ⟨_, hrest⟩ := List.cons.inj hargv
  obtain ⟨rfl, rfl⟩ := List.cons.inj hrest
  exact ⟨hreach, hret, herr, hout⟩

/-- C9 at the failing input: root, a host without the `snap_daemon` account.
The fatal diagnostic of the unknown-account path is written with `printf`, on
the standard output; nothing reaches the standard error stream. -/
theorem C9_unknown_account_diagnostic_on_stdout :
    written .stdout (main noAccountEnv ["drop", "/bin/true"]).trace =
      ["'snap_daemon' not found\n"] ∧
    written .stderr (main noAccountEnv ["drop", "/bin/true"]).trace = [] ∧
    (main noAccountEnv ["drop", "/bin/true"]).outcome = .exit EXIT_FAILURE := by
  decide

/-- C10: two invocations with a command, in the same environment, look up the
same account name, `snap_daemon`, and make the same credential-mutation calls
with the same arguments, each of them `setgroups(0, NULL)`, `setgid(pw_gid)` or
`setuid(pw_uid)` of the account record, whatever the two commands are. -/
theorem C10_transition_independent_of_command (env : Env) (argv₁ argv₂ : List String)
    (h₁ : 2 ≤ argv₁.length) (h₂ : 2 ≤ argv₂.length) :
    credCalls (main env argv₁).trace = credCalls (main env argv₂).trace ∧
    lookups (main env argv₁).trace = lookups (main env argv₂).trace ∧
    (∀ n ∈ lookups (main env argv₁).trace, n = "snap_daemon") ∧
    ∀ e ∈ credCalls (main env argv₁).trace,
      e = .setgroups 0 none ∨
      ∃ pwd, env.getpwnam "snap_daemon" = some pwd ∧
        (e = .setgid pwd.pw_gid ∨ e = .setuid pwd.pw_uid) := by
  rcases hs : env.dlsym "setgroups" with _ | sg
  · rw [main_nosym env argv₁ h₁ hs, main_nosym env argv₂ h₂ hs]
    simp [credCalls, lookups, Event.isCredMutation]
  rcases hp : env.getpwnam "snap_daemon" with _ | pwd
  · rw [main_nouser env argv₁ h₁ sg hs hp, main_nouser env argv₂ h₂ sg hs hp]
    simp [credCalls, lookups, Event.isCredMutation]
  by_cases hg : env.geteuid = 0 ∧ (sg 0 none).ret < 0
  · rw [main_setgroups_fail env argv₁ h₁ sg pwd hs hp hg.1 hg.2,
      main_setgroups_fail env argv₂ h₂ sg pwd hs hp hg.1 hg.2]
    simp [credCalls, lookups, uptoGroups, Event.isCredMutation, perror, hg.1]
  by_cases hgid : (env.setgid pwd.pw_gid).ret < 0
  · rw [main_setgid_fail env argv₁ h₁ sg pwd hs hp hg hgid,
      main_setgid_fail env argv₂ h₂ sg pwd hs hp hg hgid]
    by_cases he : env.geteuid = 0 <;>
      simp [credCalls, lookups, uptoGroups, Event.isCredMutation, perror, he]
  by_cases huid : (env.setuid pwd.pw_uid).ret < 0
  · rw [main_setuid_fail env argv₁ h₁ sg pwd hs hp hg hgid huid,
      main_setuid_fail env argv₂ h₂ sg pwd hs hp hg hgid huid]
    by_cases he : env.geteuid = 0 <;>
      simp [credCalls, lookups, uptoGroups, Event.isCredMutation, perror, he]
  · rw [main_exec env argv₁ h₁ sg pwd hs hp hg hgid huid,
      main_exec env argv₂ h₂ sg pwd hs hp hg hgid huid]
    cases env.execvp argv₁[1]? (argv₁.drop 1) <;>
      cases env.execvp argv₂[1]? (argv₂.drop 1) <;>
      by_cases he : env.geteuid = 0 <;>
      simp [credCalls, lookups, uptoGroups, Event.isCredMutation, err_line, he]

/-- C10 at two concrete runs of root: `/bin/true` (launched) and `/no/such`
(not launched) see the same transition. -/
theorem C10_transition_independent_of_command_witness :
    2 ≤ ["drop", "/bin/true"].length ∧ 2 ≤ ["drop", "/no/such", "-x"].length ∧
    credCalls (main rootEnv ["drop", "/bin/true"]).trace =
      credCalls (main rootEnv ["drop", "/no/such", "-x"]).trace ∧
    lookups (main rootEnv ["drop", "/bin/true"]).trace =
      lookups (main rootEnv ["drop", "/no/such", "-x"]).trace :=
  ⟨by decide, by decide,
    (C10_transition_independent_of_command rootEnv ["drop", "/bin/true"]
      ["drop", "/no/such", "-x"] (by decide) (by decide)).1,
    (C10_transition_independent_of_command rootEnv ["drop", "/bin/true"]
      ["drop", "/no/such", "-x"] (by decide) (by decide)).2.1⟩

end Drop
